import Mathlib

/-!
Verification development for the `pageobjectstutorial` repository: a Cypress
end-to-end test suite structured with Page Objects (`LoginPage`,
`InventoryPage`, `CartPage`), two spec files, and five custom commands.

The page objects are embedded shallowly: each element accessor becomes a
function from the page object to an element query (`Chainable`), and each
action/assertion method becomes a function returning the list of automation
engine operations it issues, paired with the page object it returns (`this` in
the source). Test scenarios and custom commands are embedded as the traces and
programs obtained by composing those methods exactly as the source does.
-/

namespace PageObjectsTutorial

/-- A lazily evaluated element query, built by the automation engine's
chainable query combinators (`cy.get`, `.contains`, `.parent`, `.find`,
`cy.url`). -/
inductive Chainable where
  | get (selector : String)
  | url
  | containsIn (base : Chainable) (selector : String) (text : String)
  | parent (base : Chainable) (selector : String)
  | findIn (base : Chainable) (selector : String)
deriving DecidableEq, Repr

/-- Argument carried by a `should` assertion: the source passes either a
string (`'contain'`, `'include'`) or a number (`'have.length'`). -/
inductive Val where
  | str (s : String)
  | num (n : Nat)
deriving DecidableEq, Repr

/-- One observable call into the automation engine. -/
inductive EngineOp where
  | visit (url : String)
  | click (q : Chainable)
  | typeText (q : Chainable) (text : String)
  | clearField (q : Chainable)
  | select (q : Chainable) (option : String)
  | should (q : Chainable) (assertion : String) (arg : Option Val)
deriving DecidableEq, Repr

/-- JavaScript truthiness of an optional string parameter (`if (message)` in
the source): absent and empty strings are falsy. -/
def jsTruthyStr : Option String → Bool
  | none => false
  | some s => !s.isEmpty

/-- `cypress/pages/LoginPage.js`: the class holds no fields; an instance is
nothing but its identity. -/
structure LoginPage where
  id : Nat
deriving DecidableEq, Repr

def LoginPage.usernameField (_ : LoginPage) : Chainable := .get "#user-name"

def LoginPage.passwordField (_ : LoginPage) : Chainable := .get "#password"

def LoginPage.loginButton (_ : LoginPage) : Chainable := .get "#login-button"

def LoginPage.errorMessage (_ : LoginPage) : Chainable := .get "[data-test=\"error\"]"

def LoginPage.errorButton (_ : LoginPage) : Chainable := .get ".error-button"

def LoginPage.visit (p : LoginPage) : List EngineOp × LoginPage :=
  ([.visit "https://www.saucedemo.com/"], p)

def LoginPage.fillUsername (p : LoginPage) (username : String) : List EngineOp × LoginPage :=
  ([.clearField p.usernameField, .typeText p.usernameField username], p)

def LoginPage.fillPassword (p : LoginPage) (password : String) : List EngineOp × LoginPage :=
  ([.clearField p.passwordField, .typeText p.passwordField password], p)

def LoginPage.clickLogin (p : LoginPage) : List EngineOp × LoginPage :=
  ([.click p.loginButton], p)

def LoginPage.clearError (p : LoginPage) : List EngineOp × LoginPage :=
  ([.click p.errorButton], p)

def LoginPage.login (p : LoginPage) (username password : String) : List EngineOp × LoginPage :=
  ((p.fillUsername username).1 ++ (p.fillPassword password).1 ++ (p.clickLogin).1, p)

def LoginPage.shouldShowError (p : LoginPage) (message : Option String) :
    List EngineOp × LoginPage :=
  (.should p.errorMessage "be.visible" none ::
      (if jsTruthyStr message then
        [.should p.errorMessage "contain" (some (.str (message.getD "")))]
      else []),
    p)

def LoginPage.shouldRedirectToInventory (p : LoginPage) : List EngineOp × LoginPage :=
  ([.should .url "include" (some (.str "/inventory"))], p)

def LoginPage.shouldBeOnLoginPage (p : LoginPage) : List EngineOp × LoginPage :=
  ([.should .url "include" (some (.str "saucedemo.com")),
    .should p.loginButton "be.visible" none], p)

/-- `cypress/pages/InventoryPage.js`: the class holds no fields; an instance
is nothing but its identity. -/
structure InventoryPage where
  id : Nat
deriving DecidableEq, Repr

def InventoryPage.pageTitle (_ : InventoryPage) : Chainable := .get ".title"

def InventoryPage.cartBadge (_ : InventoryPage) : Chainable := .get ".shopping_cart_badge"

def InventoryPage.cartIcon (_ : InventoryPage) : Chainable := .get ".shopping_cart_link"

def InventoryPage.menuButton (_ : InventoryPage) : Chainable := .get "#react-burger-menu-btn"

def InventoryPage.logoutLink (_ : InventoryPage) : Chainable := .get "#logout_sidebar_link"

def InventoryPage.inventoryItems (_ : InventoryPage) : Chainable := .get ".inventory_item"

def InventoryPage.sortDropdown (_ : InventoryPage) : Chainable := .get ".product_sort_container"

def InventoryPage.getAddToCartButton (_ : InventoryPage) (productId : String) : Chainable :=
  .get ("[data-test=\"add-to-cart-" ++ productId ++ "\"]")

def InventoryPage.getRemoveButton (_ : InventoryPage) (productId : String) : Chainable :=
  .get ("[data-test=\"remove-" ++ productId ++ "\"]")

def InventoryPage.getProductTitle (_ : InventoryPage) (productId : String) : Chainable :=
  .get ("#item_" ++ productId ++ "_title_link")

def InventoryPage.getProductPrice (_ : InventoryPage) (productId : String) : Chainable :=
  .get (".inventory_item:has([data-test=\"add-to-cart-" ++ productId ++ "\"]) .inventory_item_price")

def InventoryPage.getProductImage (_ : InventoryPage) (productId : String) : Chainable :=
  .get ("#item_" ++ productId ++ "_img_link img")

def InventoryPage.addProductToCart (p : InventoryPage) (productId : String) :
    List EngineOp × InventoryPage :=
  ([.click (p.getAddToCartButton productId)], p)

def InventoryPage.removeProductFromCart (p : InventoryPage) (productId : String) :
    List EngineOp × InventoryPage :=
  ([.click (p.getRemoveButton productId)], p)

def InventoryPage.goToCart (p : InventoryPage) : List EngineOp × InventoryPage :=
  ([.click p.cartIcon], p)

def InventoryPage.openMenu (p : InventoryPage) : List EngineOp × InventoryPage :=
  ([.click p.menuButton], p)

def InventoryPage.logout (p : InventoryPage) : List EngineOp × InventoryPage :=
  ((p.openMenu).1 ++ [.click p.logoutLink], p)

def InventoryPage.sortProducts (p : InventoryPage) (option : String) :
    List EngineOp × InventoryPage :=
  ([.select p.sortDropdown option], p)

def InventoryPage.clickProductTitle (p : InventoryPage) (productId : String) :
    List EngineOp × InventoryPage :=
  ([.click (p.getProductTitle productId)], p)

def InventoryPage.shouldHaveTitle (p : InventoryPage) (title : String) :
    List EngineOp × InventoryPage :=
  ([.should p.pageTitle "contain" (some (.str title))], p)

def InventoryPage.shouldShowCartBadge (p : InventoryPage) (count : Nat) :
    List EngineOp × InventoryPage :=
  ([.should p.cartBadge "contain" (some (.str (toString count)))], p)

def InventoryPage.shouldNotShowCartBadge (p : InventoryPage) : List EngineOp × InventoryPage :=
  ([.should p.cartBadge "not.exist" none], p)

def InventoryPage.shouldHaveProductCount (p : InventoryPage) (count : Nat) :
    List EngineOp × InventoryPage :=
  ([.should p.inventoryItems "have.length" (some (.num count))], p)

def InventoryPage.shouldShowProduct (p : InventoryPage) (productId : String) :
    List EngineOp × InventoryPage :=
  ([.should (p.getAddToCartButton productId) "exist" none], p)

/-- `cypress/pages/CartPage.js`: the class holds no fields; an instance is
nothing but its identity. -/
structure CartPage where
  id : Nat
deriving DecidableEq, Repr

def CartPage.pageTitle (_ : CartPage) : Chainable := .get ".title"

def CartPage.cartItems (_ : CartPage) : Chainable := .get ".cart_item"

def CartPage.checkoutButton (_ : CartPage) : Chainable := .get "#checkout"

def CartPage.continueShoppingButton (_ : CartPage) : Chainable := .get "#continue-shopping"

def CartPage.cartQuantity (_ : CartPage) : Chainable := .get ".cart_quantity"

def CartPage.getCartItem (_ : CartPage) (productName : String) : Chainable :=
  .parent (.containsIn (.get ".cart_item") ".inventory_item_name" productName) ".cart_item"

def CartPage.getRemoveButton (p : CartPage) (productName : String) : Chainable :=
  .findIn (p.getCartItem productName) "button[id*=\"remove\"]"

def CartPage.getItemQuantity (p : CartPage) (productName : String) : Chainable :=
  .findIn (p.getCartItem productName) ".cart_quantity"

def CartPage.getItemPrice (p : CartPage) (productName : String) : Chainable :=
  .findIn (p.getCartItem productName) ".inventory_item_price"

def CartPage.removeItem (p : CartPage) (productName : String) : List EngineOp × CartPage :=
  ([.click (p.getRemoveButton productName)], p)

def CartPage.proceedToCheckout (p : CartPage) : List EngineOp × CartPage :=
  ([.click p.checkoutButton], p)

def CartPage.continueShopping (p : CartPage) : List EngineOp × CartPage :=
  ([.click p.continueShoppingButton], p)

def CartPage.shouldHaveTitle (p : CartPage) (title : String) : List EngineOp × CartPage :=
  ([.should p.pageTitle "contain" (some (.str title))], p)

def CartPage.shouldHaveItemCount (p : CartPage) (count : Nat) : List EngineOp × CartPage :=
  ((if count = 0 then
      [.should p.cartItems "not.exist" none]
    else
      [.should p.cartItems "have.length" (some (.num count))]),
    p)

def CartPage.shouldContainProduct (p : CartPage) (productName : String) :
    List EngineOp × CartPage :=
  ([.should (p.getCartItem productName) "exist" none], p)

def CartPage.shouldNotContainProduct (p : CartPage) (productName : String) :
    List EngineOp × CartPage :=
  ([.should (.get ".cart_item .inventory_item_name") "not.contain" (some (.str productName))], p)

def CartPage.shouldShowCorrectPrice (p : CartPage) (productName expectedPrice : String) :
    List EngineOp × CartPage :=
  ([.should (p.getItemPrice productName) "contain" (some (.str expectedPrice))], p)

/-- One fluent call on a `LoginPage`, covering every action and assertion
method of the class. -/
inductive LoginCall where
  | visit
  | fillUsername (username : String)
  | fillPassword (password : String)
  | clickLogin
  | clearError
  | login (username password : String)
  | shouldShowError (message : Option String)
  | shouldRedirectToInventory
  | shouldBeOnLoginPage

/-- Dispatch a `LoginCall` to the corresponding `LoginPage` method. -/
def applyLoginCall (p : LoginPage) : LoginCall → List EngineOp × LoginPage
  | .visit => p.visit
  | .fillUsername u => p.fillUsername u
  | .fillPassword w => p.fillPassword w
  | .clickLogin => p.clickLogin
  | .clearError => p.clearError
  | .login u w => p.login u w
  | .shouldShowError m => p.shouldShowError m
  | .shouldRedirectToInventory => p.shouldRedirectToInventory
  | .shouldBeOnLoginPage => p.shouldBeOnLoginPage

/-- A fluent chain on a `LoginPage`: each call is applied to the object
returned by the previous one. -/
def runLoginChain (p : LoginPage) : List LoginCall → List EngineOp × LoginPage
  | [] => ([], p)
  | c :: cs =>
      ((applyLoginCall p c).1 ++ (runLoginChain (applyLoginCall p c).2 cs).1,
        (runLoginChain (applyLoginCall p c).2 cs).2)

/-- One fluent call on an `InventoryPage`, covering every action and assertion
method of the class. -/
inductive InventoryCall where
  | addProductToCart (productId : String)
  | removeProductFromCart (productId : String)
  | goToCart
  | openMenu
  | logout
  | sortProducts (option : String)
  | clickProductTitle (productId : String)
  | shouldHaveTitle (title : String)
  | shouldShowCartBadge (count : Nat)
  | shouldNotShowCartBadge
  | shouldHaveProductCount (count : Nat)
  | shouldShowProduct (productId : String)

/-- Dispatch an `InventoryCall` to the corresponding `InventoryPage` method. -/
def applyInventoryCall (p : InventoryPage) : InventoryCall → List EngineOp × InventoryPage
  | .addProductToCart pid => p.addProductToCart pid
  | .removeProductFromCart pid => p.removeProductFromCart pid
  | .goToCart => p.goToCart
  | .openMenu => p.openMenu
  | .logout => p.logout
  | .sortProducts opt => p.sortProducts opt
  | .clickProductTitle pid => p.clickProductTitle pid
  | .shouldHaveTitle t => p.shouldHaveTitle t
  | .shouldShowCartBadge n => p.shouldShowCartBadge n
  | .shouldNotShowCartBadge => p.shouldNotShowCartBadge
  | .shouldHaveProductCount n => p.shouldHaveProductCount n
  | .shouldShowProduct pid => p.shouldShowProduct pid

/-- A fluent chain on an `InventoryPage`. -/
def runInventoryChain (p : InventoryPage) : List InventoryCall → List EngineOp × InventoryPage
  | [] => ([], p)
  | c :: cs =>
      ((applyInventoryCall p c).1 ++ (runInventoryChain (applyInventoryCall p c).2 cs).1,
        (runInventoryChain (applyInventoryCall p c).2 cs).2)

/-- One fluent call on a `CartPage`, covering every action and assertion
method of the class. -/
inductive CartCall where
  | removeItem (productName : String)
  | proceedToCheckout
  | continueShopping
  | shouldHaveTitle (title : String)
  | shouldHaveItemCount (count : Nat)
  | shouldContainProduct (productName : String)
  | shouldNotContainProduct (productName : String)
  | shouldShowCorrectPrice (productName expectedPrice : String)

/-- Dispatch a `CartCall` to the corresponding `CartPage` method. -/
def applyCartCall (p : CartPage) : CartCall → List EngineOp × CartPage
  | .removeItem n => p.removeItem n
  | .proceedToCheckout => p.proceedToCheckout
  | .continueShopping => p.continueShopping
  | .shouldHaveTitle t => p.shouldHaveTitle t
  | .shouldHaveItemCount n => p.shouldHaveItemCount n
  | .shouldContainProduct n => p.shouldContainProduct n
  | .shouldNotContainProduct n => p.shouldNotContainProduct n
  | .shouldShowCorrectPrice n e => p.shouldShowCorrectPrice n e

/-- A fluent chain on a `CartPage`. -/
def runCartChain (p : CartPage) : List CartCall → List EngineOp × CartPage
  | [] => ([], p)
  | c :: cs =>
      ((applyCartCall p c).1 ++ (runCartChain (applyCartCall p c).2 cs).1,
        (runCartChain (applyCartCall p c).2 cs).2)

/-! Page object instances held by the spec files and the commands module.
The classes are fieldless, so an instance is only an identity; distinct
identities model the distinct `new ...()` allocations in the source. -/

def loginSpecLoginPage : LoginPage := ⟨1⟩

def loginSpecInventoryPage : InventoryPage := ⟨2⟩

def shoppingSpecLoginPage : LoginPage := ⟨3⟩

def shoppingSpecInventoryPage : InventoryPage := ⟨4⟩

def shoppingSpecCartPage : CartPage := ⟨5⟩

def commandLoginPage : LoginPage := ⟨6⟩

def commandInventoryPage : InventoryPage := ⟨7⟩

def commandCartPage : CartPage := ⟨8⟩

/-- `login-with-page-objects.cy.js`, `beforeEach`: `loginPage.visit()`. -/
def loginSpecBeforeEach : List EngineOp := (loginSpecLoginPage.visit).1

/-- Scenario body: `Deve fazer login com credenciais válidas`. -/
def loginScenario1Body : List EngineOp :=
  let r1 := loginSpecLoginPage.login "standard_user" "secret_sauce"
  let r2 := r1.2.shouldRedirectToInventory
  let r3 := loginSpecInventoryPage.shouldHaveTitle "Products"
  let r4 := r3.2.shouldHaveProductCount 6
  r1.1 ++ r2.1 ++ r3.1 ++ r4.1

/-- Scenario body: `Deve mostrar erro para credenciais inválidas`. -/
def loginScenario2Body : List EngineOp :=
  let r1 := loginSpecLoginPage.login "invalid_user" "wrong_password"
  let r2 := r1.2.shouldShowError (some "Username and password do not match")
  r1.1 ++ r2.1

/-- Scenario body: `Deve mostrar erro para campos vazios`. -/
def loginScenario3Body : List EngineOp :=
  let r1 := loginSpecLoginPage.clickLogin
  let r2 := r1.2.shouldShowError (some "Username is required")
  r1.1 ++ r2.1

/-- Scenario body: `Deve limpar erro ao clicar no X`. -/
def loginScenario4Body : List EngineOp :=
  let r1 := loginSpecLoginPage.login "invalid_user" "wrong_password"
  let r2 := r1.2.shouldShowError none
  let r3 := r2.2.clearError
  r1.1 ++ r2.1 ++ r3.1 ++ [.should loginSpecLoginPage.errorMessage "not.exist" none]

/-- Scenario body: `Deve fazer logout corretamente`. -/
def loginScenario5Body : List EngineOp :=
  let r1 := loginSpecLoginPage.login "standard_user" "secret_sauce"
  let r2 := r1.2.shouldRedirectToInventory
  let r3 := loginSpecInventoryPage.logout
  let r4 := loginSpecLoginPage.shouldBeOnLoginPage
  r1.1 ++ r2.1 ++ r3.1 ++ r4.1

/-- `commands.js`, body of the `loginAsStandardUser` custom command:
`new LoginPage()` then `visit().login('standard_user', 'secret_sauce')
.shouldRedirectToInventory()`. -/
def loginAsStandardUserTrace : List EngineOp :=
  let r1 := commandLoginPage.visit
  let r2 := r1.2.login "standard_user" "secret_sauce"
  let r3 := r2.2.shouldRedirectToInventory
  r1.1 ++ r2.1 ++ r3.1

/-- `shopping-with-page-objects.cy.js`, `beforeEach`:
`cy.loginAsStandardUser()`. -/
def shoppingSpecBeforeEach : List EngineOp := loginAsStandardUserTrace

/-- Scenario body: `Deve adicionar produto ao carrinho`. -/
def shoppingScenario1Body : List EngineOp :=
  let r1 := shoppingSpecInventoryPage.addProductToCart "sauce-labs-backpack"
  let r2 := r1.2.shouldShowCartBadge 1
  r1.1 ++ r2.1

/-- Scenario body: `Deve adicionar múltiplos produtos`. -/
def shoppingScenario2Body : List EngineOp :=
  let r1 := shoppingSpecInventoryPage.addProductToCart "sauce-labs-backpack"
  let r2 := r1.2.addProductToCart "sauce-labs-bike-light"
  let r3 := r2.2.addProductToCart "sauce-labs-bolt-t-shirt"
  let r4 := r3.2.shouldShowCartBadge 3
  r1.1 ++ r2.1 ++ r3.1 ++ r4.1

/-- Scenario body: `Deve remover produto do inventário`. -/
def shoppingScenario3Body : List EngineOp :=
  let r1 := shoppingSpecInventoryPage.addProductToCart "sauce-labs-backpack"
  let r2 := r1.2.shouldShowCartBadge 1
  let r3 := r2.2.removeProductFromCart "sauce-labs-backpack"
  let r4 := r3.2.shouldNotShowCartBadge
  r1.1 ++ r2.1 ++ r3.1 ++ r4.1

/-- Scenario body: `Deve visualizar carrinho com produtos`. -/
def shoppingScenario4Body : List EngineOp :=
  let r1 := shoppingSpecInventoryPage.addProductToCart "sauce-labs-backpack"
  let r2 := r1.2.addProductToCart "sauce-labs-bike-light"
  let r3 := r2.2.goToCart
  let r4 := shoppingSpecCartPage.shouldHaveTitle "Your Cart"
  let r5 := r4.2.shouldHaveItemCount 2
  let r6 := r5.2.shouldContainProduct "Sauce Labs Backpack"
  let r7 := r6.2.shouldContainProduct "Sauce Labs Bike Light"
  r1.1 ++ r2.1 ++ r3.1 ++ r4.1 ++ r5.1 ++ r6.1 ++ r7.1

/-- Scenario body: `Deve remover produto do carrinho`. -/
def shoppingScenario5Body : List EngineOp :=
  let r1 := shoppingSpecInventoryPage.addProductToCart "sauce-labs-backpack"
  let r2 := r1.2.goToCart
  let r3 := shoppingSpecCartPage.shouldHaveItemCount 1
  let r4 := r3.2.removeItem "Sauce Labs Backpack"
  let r5 := r4.2.shouldHaveItemCount 0
  r1.1 ++ r2.1 ++ r3.1 ++ r4.1 ++ r5.1

/-- Scenario body: `Deve continuar comprando do carrinho`. -/
def shoppingScenario6Body : List EngineOp :=
  let r1 := shoppingSpecInventoryPage.addProductToCart "sauce-labs-backpack"
  let r2 := r1.2.goToCart
  let r3 := shoppingSpecCartPage.continueShopping
  let r4 := shoppingSpecInventoryPage.shouldHaveTitle "Products"
  let r5 := r4.2.shouldShowCartBadge 1
  r1.1 ++ r2.1 ++ r3.1 ++ r4.1 ++ r5.1

/-- Scenario body: `Fluxo completo: Adicionar → Ver Carrinho → Continuar
Comprando → Checkout`. -/
def shoppingScenario7Body : List EngineOp :=
  let r1 := shoppingSpecInventoryPage.addProductToCart "sauce-labs-backpack"
  let r2 := r1.2.addProductToCart "sauce-labs-bike-light"
  let r3 := shoppingSpecInventoryPage.goToCart
  let r4 := shoppingSpecCartPage.shouldHaveItemCount 2
  let r5 := r4.2.shouldContainProduct "Sauce Labs Backpack"
  let r6 := shoppingSpecCartPage.continueShopping
  let r7 := shoppingSpecInventoryPage.addProductToCart "sauce-labs-bolt-t-shirt"
  let r8 := shoppingSpecInventoryPage.goToCart
  let r9 := shoppingSpecCartPage.shouldHaveItemCount 3
  let r10 := r9.2.proceedToCheckout
  r1.1 ++ r2.1 ++ r3.1 ++ r4.1 ++ r5.1 ++ r6.1 ++ r7.1 ++ r8.1 ++ r9.1 ++ r10.1 ++
    [.should .url "include" (some (.str "/checkout-step-one"))]

/-- The twelve scenarios of the two spec files, each prefixed by its spec's
`beforeEach` trace. -/
def allScenarioTraces : List (List EngineOp) :=
  [loginSpecBeforeEach ++ loginScenario1Body,
   loginSpecBeforeEach ++ loginScenario2Body,
   loginSpecBeforeEach ++ loginScenario3Body,
   loginSpecBeforeEach ++ loginScenario4Body,
   loginSpecBeforeEach ++ loginScenario5Body,
   shoppingSpecBeforeEach ++ shoppingScenario1Body,
   shoppingSpecBeforeEach ++ shoppingScenario2Body,
   shoppingSpecBeforeEach ++ shoppingScenario3Body,
   shoppingSpecBeforeEach ++ shoppingScenario4Body,
   shoppingSpecBeforeEach ++ shoppingScenario5Body,
   shoppingSpecBeforeEach ++ shoppingScenario6Body,
   shoppingSpecBeforeEach ++ shoppingScenario7Body]

/-- Every engine operation issued by any scenario of the two spec files. -/
def allScenarioOps : List EngineOp := allScenarioTraces.flatMap id

/-- A process-level event: either a write to the global custom command
registry (`Cypress.Commands.add`) or an engine operation issued while a
scenario runs. -/
inductive Event where
  | register (name : String)
  | eng (op : EngineOp)
deriving DecidableEq, Repr

def Event.isRegister : Event → Bool
  | .register _ => true
  | .eng _ => false

/-- The names registered by the five top-level `Cypress.Commands.add` calls of
`commands.js`, in source order. -/
def registeredCommandNames : List String :=
  ["loginAsStandardUser", "loginAs", "addProductViaUI", "clearCart", "setupCartWithProducts"]

/-- Modelled from the spec: the automation engine (an external collaborator)
loads the support module — whose top level performs the command
registrations — before any test spec executes; scenario execution then issues
only engine operations. `fullRunEvents` is the resulting event sequence of a
whole run. -/
def fullRunEvents : List Event :=
  registeredCommandNames.map Event.register ++ allScenarioOps.map Event.eng

/-- A runtime failure: either an engine operation that fails (an element not
found, an assertion that never holds, a navigation timeout), or a JavaScript
`ReferenceError` from resolving a name that is not bound in the executing
module's scope. -/
inductive JsFailure where
  | engineFailure (op : EngineOp)
  | referenceError (className : String)
deriving DecidableEq, Repr

/-- A command/test program over the engine: the constructs the source language
offers. `newObj` models `new C()` (name resolution against the module scope),
`ifCartNonempty` models `cy.get('body').then($body => if
($body.find('.cart_item').length > 0) ...)`, and `eachCartItemName` models
`cy.get('.cart_item .inventory_item_name').each($item => ...)` with a
straight-line callback body. `tryCatch` and `retryOnFailure` are available in
the language (JavaScript has `try`/`catch` and loops) so that their absence
from the embedded programs is a checkable property of the source. -/
inductive TestProg where
  | skip
  | act (op : EngineOp)
  | newObj (className : String)
  | seq (a b : TestProg)
  | ifCartNonempty (thenBranch elseBranch : TestProg)
  | eachCartItemName (body : String → List EngineOp)
  | tryCatch (body handler : TestProg)
  | retryOnFailure (extra : Nat) (body : TestProg)

/-- Run a straight line of engine operations against a failure oracle,
halting at the first failing operation; returns the operations actually
executed (the failing one included) and the outcome. -/
def execOps (fails : EngineOp → Bool) : List EngineOp → List EngineOp × Except JsFailure Unit
  | [] => ([], .ok ())
  | op :: rest =>
      if fails op then ([op], .error (.engineFailure op))
      else
        ((op :: (execOps fails rest).1), (execOps fails rest).2)

/-- `t` repeated `n` times. -/
def repTrace : Nat → List EngineOp → List EngineOp
  | 0, _ => []
  | k + 1, t => t ++ repTrace k t

/-- Execute a program in a module scope, against a failure oracle and the
current cart contents; returns the engine operations actually executed and the
outcome. The oracle is deterministic, so a `retryOnFailure` whose body fails
repeats the body's failing trace on every one of its attempts and still
fails. -/
def execProg (scope : List String) (fails : EngineOp → Bool) (cart : List String) :
    TestProg → List EngineOp × Except JsFailure Unit
  | .skip => ([], .ok ())
  | .act op => if fails op then ([op], .error (.engineFailure op)) else ([op], .ok ())
  | .newObj c =>
      if scope.contains c then ([], .ok ()) else ([], .error (.referenceError c))
  | .seq a b =>
      match execProg scope fails cart a, execProg scope fails cart b with
      | (ta, .error f), _ => (ta, .error f)
      | (ta, .ok _), (tb, rb) => (ta ++ tb, rb)
  | .ifCartNonempty t e =>
      if 0 < cart.length then execProg scope fails cart t else execProg scope fails cart e
  | .eachCartItemName body => execOps fails (cart.flatMap body)
  | .tryCatch b h =>
      match execProg scope fails cart b, execProg scope fails cart h with
      | (tb, .ok u), _ => (tb, .ok u)
      | (tb, .error _), (th, rh) => (tb ++ th, rh)
  | .retryOnFailure extra b =>
      match execProg scope fails cart b with
      | (tb, .ok u) => (tb, .ok u)
      | (tb, .error f) => (repTrace (extra + 1) tb, .error f)

/-- Reference semantics with no recovery whatsoever: a `tryCatch` never runs
its handler (the body's outcome stands) and a `retryOnFailure` makes a single
attempt. -/
def execStrict (scope : List String) (fails : EngineOp → Bool) (cart : List String) :
    TestProg → List EngineOp × Except JsFailure Unit
  | .skip => ([], .ok ())
  | .act op => if fails op then ([op], .error (.engineFailure op)) else ([op], .ok ())
  | .newObj c =>
      if scope.contains c then ([], .ok ()) else ([], .error (.referenceError c))
  | .seq a b =>
      match execStrict scope fails cart a, execStrict scope fails cart b with
      | (ta, .error f), _ => (ta, .error f)
      | (ta, .ok _), (tb, rb) => (ta ++ tb, rb)
  | .ifCartNonempty t e =>
      if 0 < cart.length then execStrict scope fails cart t else execStrict scope fails cart e
  | .eachCartItemName body => execOps fails (cart.flatMap body)
  | .tryCatch b _ => execStrict scope fails cart b
  | .retryOnFailure _ b => execStrict scope fails cart b

/-- `true` iff the program contains no `tryCatch` and no `retryOnFailure`. -/
def catchRetryFree : TestProg → Bool
  | .skip => true
  | .act _ => true
  | .newObj _ => true
  | .seq a b => catchRetryFree a && catchRetryFree b
  | .ifCartNonempty t e => catchRetryFree t && catchRetryFree e
  | .eachCartItemName _ => true
  | .tryCatch _ _ => false
  | .retryOnFailure _ _ => false

/-- A straight line of engine operations, as a program. -/
def ofOps : List EngineOp → TestProg
  | [] => .skip
  | op :: rest => .seq (.act op) (ofOps rest)

/-- The names bound at the top of `commands.js`: it imports only `LoginPage`
and `InventoryPage` (`CartPage` is not imported there). -/
def commandsModuleScope : List String := ["LoginPage", "InventoryPage"]

/-- `commands.js`: the `loginAsStandardUser` command body. -/
def loginAsStandardUserProg : TestProg :=
  .seq (.newObj "LoginPage") (ofOps loginAsStandardUserTrace)

/-- `commands.js`: the `loginAs` command body. -/
def loginAsProg (username password : String) : TestProg :=
  let r1 := commandLoginPage.visit
  let r2 := r1.2.login username password
  .seq (.newObj "LoginPage") (ofOps (r1.1 ++ r2.1))

/-- `commands.js`: the `addProductViaUI` command body. -/
def addProductViaUIProg (productId : String) : TestProg :=
  .seq (.newObj "InventoryPage") (ofOps (commandInventoryPage.addProductToCart productId).1)

/-- `commands.js`: the `clearCart` command body. Note the second `newObj`:
the source evaluates `new CartPage()` although `commands.js` never imports
`CartPage`; the later `each` body is the `cartPage.removeItem(productName)`
call the source intends. -/
def clearCartProg : TestProg :=
  .seq (.newObj "InventoryPage")
    (.seq (.newObj "CartPage")
      (.seq (ofOps (commandInventoryPage.goToCart).1)
        (.ifCartNonempty
          (.eachCartItemName (fun productName => (commandCartPage.removeItem productName).1))
          .skip)))

/-- `commands.js`: the `setupCartWithProducts` command body: it invokes
`cy.loginAsStandardUser()`, allocates an `InventoryPage`, and adds each given
product. -/
def setupCartWithProductsProg (products : List String) : TestProg :=
  .seq loginAsStandardUserProg
    (.seq (.newObj "InventoryPage")
      (ofOps (products.flatMap (fun productId =>
        (commandInventoryPage.addProductToCart productId).1))))

/-- Modelled from the spec: the automation engine is an external collaborator
(not part of this repository), so its assertion semantics over a cart holding
the given item names is taken from the spec's edge-case policy: `not.exist`
succeeds exactly on an empty selection, while any other assertion chained onto
a `cy.get` query first requires at least one matching element ("no elements"
is reported as "element not found", not as an empty collection). Only the
cart assertions this development needs are interpreted; all other operations
are taken to succeed. -/
def assertHolds (cart : List String) : EngineOp → Bool
  | .should (.get ".cart_item") "not.exist" _ => cart.isEmpty
  | .should (.get ".cart_item") "have.length" (some (.num n)) => cart.length == n
  | .should (.get ".cart_item .inventory_item_name") "not.contain" (some (.str s)) =>
      !cart.isEmpty && !(cart.contains s)
  | _ => true

/-- `true` for the operations that interact with the live page (visit, click,
type, clear, select); assertions observe but do not interact. -/
def isInteraction : EngineOp → Bool
  | .visit _ => true
  | .click _ => true
  | .typeText _ _ => true
  | .clearField _ => true
  | .select _ _ => true
  | .should _ _ _ => false

/-- Number of user-observable interactions in a trace. -/
def interactionCount (ops : List EngineOp) : Nat :=
  (ops.filter isInteraction).length

/-! Helper lemmas shared by several results. -/

theorem applyLoginCall_snd (p : LoginPage) (c : LoginCall) : (applyLoginCall p c).2 = p := by
  cases c <;> rfl

theorem applyInventoryCall_snd (p : InventoryPage) (c : InventoryCall) :
    (applyInventoryCall p c).2 = p := by
  cases c <;> rfl

theorem applyCartCall_snd (p : CartPage) (c : CartCall) : (applyCartCall p c).2 = p := by
  cases c <;> rfl

theorem runLoginChain_snd (p : LoginPage) (cs : List LoginCall) :
    (runLoginChain p cs).2 = p := by
  induction cs generalizing p with
  | nil => rfl
  | cons c cs ih => simp only [runLoginChain, ih, applyLoginCall_snd]

theorem runInventoryChain_snd (p : InventoryPage) (cs : List InventoryCall) :
    (runInventoryChain p cs).2 = p := by
  induction cs generalizing p with
  | nil => rfl
  | cons c cs ih => simp only [runInventoryChain, ih, applyInventoryCall_snd]

theorem runCartChain_snd (p : CartPage) (cs : List CartCall) :
    (runCartChain p cs).2 = p := by
  induction cs generalizing p with
  | nil => rfl
  | cons c cs ih => simp only [runCartChain, ih, applyCartCall_snd]

theorem catchRetryFree_ofOps (ops : List EngineOp) : catchRetryFree (ofOps ops) = true := by
  induction ops with
  | nil => rfl
  | cons op rest ih => simp only [ofOps, catchRetryFree, ih, Bool.and_true]

theorem execProg_eq_execStrict (scope : List String) (fails : EngineOp → Bool)
    (cart : List String) (p : TestProg) (h : catchRetryFree p = true) :
    execProg scope fails cart p = execStrict scope fails cart p := by
  induction p with
  | skip => rfl
  | act op => rfl
  | newObj c => rfl
  | seq a b iha ihb =>
      simp only [catchRetryFree, Bool.and_eq_true] at h
      simp only [execProg, execStrict, iha h.1, ihb h.2]
  | ifCartNonempty t e iht ihe =>
      simp only [catchRetryFree, Bool.and_eq_true] at h
      simp only [execProg, execStrict, iht h.1, ihe h.2]
  | eachCartItemName body => rfl
  | tryCatch b hb ihb ihh => exact absurd h (by simp [catchRetryFree])
  | retryOnFailure n b ihb => exact absurd h (by simp [catchRetryFree])

/-! The claims. -/

/-- Claim C1: every action and assertion method of the three page objects
(`LoginPage`, `InventoryPage`, `CartPage`) returns the page object it was
called on, for every argument value, and therefore any fluent chain of such
calls operates on one fixed instance throughout. -/
theorem c1_methods_return_receiver :
    (∀ (p : LoginPage) (c : LoginCall), (applyLoginCall p c).2 = p) ∧
    (∀ (p : InventoryPage) (c : InventoryCall), (applyInventoryCall p c).2 = p) ∧
    (∀ (p : CartPage) (c : CartCall), (applyCartCall p c).2 = p) ∧
    (∀ (p : LoginPage) (cs : List LoginCall), (runLoginChain p cs).2 = p) ∧
    (∀ (p : InventoryPage) (cs : List InventoryCall), (runInventoryChain p cs).2 = p) ∧
    (∀ (p : CartPage) (cs : List CartCall), (runCartChain p cs).2 = p) :=
  ⟨applyLoginCall_snd, applyInventoryCall_snd, applyCartCall_snd,
   runLoginChain_snd, runInventoryChain_snd, runCartChain_snd⟩

/-- Claim C2: for every expected count n, `CartPage.shouldHaveItemCount n`
branches on n being zero: for n = 0 it asserts that no cart item element
exists, and for n > 0 it asserts that the cart item collection has length
exactly n. -/
theorem c2_shouldHaveItemCount_branches (p : CartPage) (n : Nat) :
    (n = 0 → (p.shouldHaveItemCount n).1 = [.should p.cartItems "not.exist" none]) ∧
    (0 < n → (p.shouldHaveItemCount n).1 =
        [.should p.cartItems "have.length" (some (.num n))]) := by
  constructor
  · intro h
    subst h
    rfl
  · intro h
    simp only [CartPage.shouldHaveItemCount, if_neg (Nat.pos_iff_ne_zero.mp h)]

/-- Witness for C2 at the concrete counts 0 and 2. -/
theorem c2_witness :
    ((⟨0⟩ : CartPage).shouldHaveItemCount 0).1 =
      [.should (⟨0⟩ : CartPage).cartItems "not.exist" none] ∧
    ((⟨0⟩ : CartPage).shouldHaveItemCount 2).1 =
      [.should (⟨0⟩ : CartPage).cartItems "have.length" (some (.num 2))] :=
  ⟨(c2_shouldHaveItemCount_branches ⟨0⟩ 0).1 rfl,
   (c2_shouldHaveItemCount_branches ⟨0⟩ 2).2 (by decide)⟩

/-- The assertion "the cart badge shows the text 0", which the test suite must
never issue: a zero count is expressed as absence of the badge. -/
def cartBadgeZeroAssertion : EngineOp :=
  .should (Chainable.get ".shopping_cart_badge") "contain" (some (.str "0"))

/-- Claim C3: a zero cart count is asserted as absence of the badge element,
never as the text "0": `shouldShowCartBadge n` asserts the badge shows n for
every n > 0, `shouldNotShowCartBadge` asserts the badge does not exist, the
inventory removal scenario (`Deve remover produto do inventário`, the one
removal-from-inventory test, with N = 1 products) checks the resulting count
N - 1 = 0 via `shouldNotShowCartBadge`, and no scenario of either spec ever
asserts that the badge contains "0". -/
theorem c3_zero_badge_is_absence :
    (∀ (p : InventoryPage) (n : Nat), 0 < n →
        (p.shouldShowCartBadge n).1 =
          [.should p.cartBadge "contain" (some (.str (toString n)))]) ∧
    (∀ p : InventoryPage, (p.shouldNotShowCartBadge).1 =
        [.should p.cartBadge "not.exist" none]) ∧
    shoppingScenario3Body =
      [.click (shoppingSpecInventoryPage.getAddToCartButton "sauce-labs-backpack"),
       .should shoppingSpecInventoryPage.cartBadge "contain" (some (.str "1")),
       .click (shoppingSpecInventoryPage.getRemoveButton "sauce-labs-backpack"),
       .should shoppingSpecInventoryPage.cartBadge "not.exist" none] ∧
    allScenarioOps.contains cartBadgeZeroAssertion = false :=
  ⟨fun _ _ _ => rfl, fun _ => rfl, rfl, by decide⟩

/-- Witness for C3 at the concrete count 3. -/
theorem c3_witness :
    ((⟨0⟩ : InventoryPage).shouldShowCartBadge 3).1 =
      [.should (⟨0⟩ : InventoryPage).cartBadge "contain" (some (.str "3"))] :=
  c3_zero_badge_is_absence.1 ⟨0⟩ 3 (by decide)

/-- Claim C4: the code models "zero cart items" inconsistently: on a cart with
zero items, the assertion emitted by `CartPage.shouldHaveItemCount 0`
(absence of the `.cart_item` element) holds, while the assertion emitted by
`CartPage.shouldNotContainProduct` (a query over the cart item name elements,
which requires such elements to exist) fails — the two representations of
emptiness disagree on the empty cart. -/
theorem c4_emptiness_representations_disagree (p : CartPage) (productName : String) :
    ((p.shouldHaveItemCount 0).1.all (assertHolds [])) = true ∧
    ((p.shouldNotContainProduct productName).1.all (assertHolds [])) = false :=
  ⟨rfl, rfl⟩

/-- Claim C5 fails on the code: `LoginPage.fillUsername` issues a clear of the
field followed by a type into it, i.e. two user-observable interactions, not
one. -/
theorem c5_counterexample :
    interactionCount ((⟨0⟩ : LoginPage).fillUsername "standard_user").1 = 2 ∧
    interactionCount ((⟨0⟩ : LoginPage).fillUsername "standard_user").1 ≠ 1 := by
  decide

/-- Claim C5 (amended): `fillUsername` and `fillPassword` each perform exactly
two user-observable interactions (clearing the field, then typing the value);
every other non-composite action method performs exactly one, and the
composite methods `login` and `logout` perform five and two respectively. -/
theorem c5_amended_interaction_counts (lp : LoginPage) (ip : InventoryPage) (cp : CartPage)
    (username password productId sortOption productName : String) :
    interactionCount (lp.fillUsername username).1 = 2 ∧
    interactionCount (lp.fillPassword password).1 = 2 ∧
    interactionCount (lp.visit).1 = 1 ∧
    interactionCount (lp.clickLogin).1 = 1 ∧
    interactionCount (lp.clearError).1 = 1 ∧
    interactionCount (ip.addProductToCart productId).1 = 1 ∧
    interactionCount (ip.removeProductFromCart productId).1 = 1 ∧
    interactionCount (ip.goToCart).1 = 1 ∧
    interactionCount (ip.openMenu).1 = 1 ∧
    interactionCount (ip.sortProducts sortOption).1 = 1 ∧
    interactionCount (ip.clickProductTitle productId).1 = 1 ∧
    interactionCount (cp.removeItem productName).1 = 1 ∧
    interactionCount (cp.proceedToCheckout).1 = 1 ∧
    interactionCount (cp.continueShopping).1 = 1 ∧
    interactionCount (lp.login username password).1 = 5 ∧
    interactionCount (ip.logout).1 = 2 :=
  ⟨rfl, rfl, rfl, rfl, rfl, rfl, rfl, rfl, rfl, rfl, rfl, rfl, rfl, rfl, rfl, rfl⟩

/-- Claim C6: for every username and password, `LoginPage.login` performs
exactly `fillUsername username`, then `fillPassword password`, then
`clickLogin`, in that fixed order with no step beyond those three, and returns
the page object it was called on. -/
theorem c6_login_is_fill_fill_click (p : LoginPage) (username password : String) :
    (p.login username password).1 =
      (p.fillUsername username).1 ++ (p.fillPassword password).1 ++ (p.clickLogin).1 ∧
    (p.login username password).1 =
      [.clearField p.usernameField, .typeText p.usernameField username,
       .clearField p.passwordField, .typeText p.passwordField password,
       .click p.loginButton] ∧
    (p.login username password).2 = p :=
  ⟨rfl, rfl, rfl⟩

/-- Claim C7: page object instances hold no mutable fields (an instance is
determined by its identity alone), every element accessor recomputes a fresh
selector query that is independent of the instance and of any prior call
(never a stored handle), and no method call changes the page object itself. -/
theorem c7_stateless_fresh_accessors :
    (∀ a b : LoginPage, a.id = b.id → a = b) ∧
    (∀ a b : InventoryPage, a.id = b.id → a = b) ∧
    (∀ a b : CartPage, a.id = b.id → a = b) ∧
    (∀ p : LoginPage,
      p.usernameField = .get "#user-name" ∧
      p.passwordField = .get "#password" ∧
      p.loginButton = .get "#login-button" ∧
      p.errorMessage = .get "[data-test=\"error\"]" ∧
      p.errorButton = .get ".error-button") ∧
    (∀ p : InventoryPage,
      p.pageTitle = .get ".title" ∧
      p.cartBadge = .get ".shopping_cart_badge" ∧
      p.cartIcon = .get ".shopping_cart_link" ∧
      p.menuButton = .get "#react-burger-menu-btn" ∧
      p.logoutLink = .get "#logout_sidebar_link" ∧
      p.inventoryItems = .get ".inventory_item" ∧
      p.sortDropdown = .get ".product_sort_container") ∧
    (∀ (p : InventoryPage) (productId : String),
      p.getAddToCartButton productId =
        .get ("[data-test=\"add-to-cart-" ++ productId ++ "\"]") ∧
      p.getRemoveButton productId = .get ("[data-test=\"remove-" ++ productId ++ "\"]") ∧
      p.getProductTitle productId = .get ("#item_" ++ productId ++ "_title_link") ∧
      p.getProductPrice productId =
        .get (".inventory_item:has([data-test=\"add-to-cart-" ++ productId ++
          "\"]) .inventory_item_price") ∧
      p.getProductImage productId = .get ("#item_" ++ productId ++ "_img_link img")) ∧
    (∀ p : CartPage,
      p.pageTitle = .get ".title" ∧
      p.cartItems = .get ".cart_item" ∧
      p.checkoutButton = .get "#checkout" ∧
      p.continueShoppingButton = .get "#continue-shopping" ∧
      p.cartQuantity = .get ".cart_quantity") ∧
    (∀ (p : CartPage) (productName : String),
      p.getCartItem productName =
        .parent (.containsIn (.get ".cart_item") ".inventory_item_name" productName)
          ".cart_item" ∧
      p.getRemoveButton productName =
        .findIn (p.getCartItem productName) "button[id*=\"remove\"]" ∧
      p.getItemQuantity productName = .findIn (p.getCartItem productName) ".cart_quantity" ∧
      p.getItemPrice productName = .findIn (p.getCartItem productName) ".inventory_item_price") ∧
    (∀ (p : LoginPage) (c : LoginCall), (applyLoginCall p c).2 = p) ∧
    (∀ (p : InventoryPage) (c : InventoryCall), (applyInventoryCall p c).2 = p) ∧
    (∀ (p : CartPage) (c : CartCall), (applyCartCall p c).2 = p) := by
  refine ⟨?_, ?_, ?_, ?_, ?_, ?_, ?_, ?_, ?_, ?_, ?_⟩
  · intro a b h
    cases a
    cases b
    cases h
    rfl
  · intro a b h
    cases a
    cases b
    cases h
    rfl
  · intro a b h
    cases a
    cases b
    cases h
    rfl
  · exact fun p => ⟨rfl, rfl, rfl, rfl, rfl⟩
  · exact fun p => ⟨rfl, rfl, rfl, rfl, rfl, rfl, rfl⟩
  · exact fun p productId => ⟨rfl, rfl, rfl, rfl, rfl⟩
  · exact fun p => ⟨rfl, rfl, rfl, rfl, rfl⟩
  · exact fun p productName => ⟨rfl, rfl, rfl, rfl⟩
  · exact applyLoginCall_snd
  · exact applyInventoryCall_snd
  · exact applyCartCall_snd

/-- Witness for C7: two login page values with the same identity are equal,
and a concrete instance's accessor is the fresh query of its selector. -/
theorem c7_witness :
    (⟨5⟩ : LoginPage) = (⟨5⟩ : LoginPage) ∧
    (⟨5⟩ : LoginPage).usernameField = .get "#user-name" :=
  ⟨c7_stateless_fresh_accessors.1 ⟨5⟩ ⟨5⟩ rfl,
   (c7_stateless_fresh_accessors.2.2.2.1 ⟨5⟩).1⟩

/-- Claim C8: no page object method and no custom command catches, wraps,
reclassifies, retries, or continues past an automation engine failure: every
embedded method and command program is free of `tryCatch` and
`retryOnFailure`, and executing any such program is identical to executing it
under the strict semantics, in which a failure propagates unmodified, is fatal
to the scenario, and nothing is ever re-attempted. -/
theorem c8_no_catch_no_retry :
    (∀ p : TestProg, catchRetryFree p = true →
      ∀ (scope : List String) (fails : EngineOp → Bool) (cart : List String),
        execProg scope fails cart p = execStrict scope fails cart p) ∧
    (∀ (p : LoginPage) (c : LoginCall),
      catchRetryFree (ofOps (applyLoginCall p c).1) = true) ∧
    (∀ (p : InventoryPage) (c : InventoryCall),
      catchRetryFree (ofOps (applyInventoryCall p c).1) = true) ∧
    (∀ (p : CartPage) (c : CartCall),
      catchRetryFree (ofOps (applyCartCall p c).1) = true) ∧
    catchRetryFree loginAsStandardUserProg = true ∧
    (∀ username password, catchRetryFree (loginAsProg username password) = true) ∧
    (∀ productId, catchRetryFree (addProductViaUIProg productId) = true) ∧
    catchRetryFree clearCartProg = true ∧
    (∀ products, catchRetryFree (setupCartWithProductsProg products) = true) := by
  refine ⟨fun p h scope fails cart => execProg_eq_execStrict scope fails cart p h,
    fun p c => catchRetryFree_ofOps _,
    fun p c => catchRetryFree_ofOps _,
    fun p c => catchRetryFree_ofOps _,
    rfl, fun username password => rfl, fun productId => rfl, rfl, fun products => ?_⟩
  simp only [setupCartWithProductsProg, catchRetryFree, catchRetryFree_ofOps,
    Bool.and_true, Bool.and_self]

/-- Witness for C8: the `clearCart` command program is catch- and retry-free,
and on a concrete scope, oracle and cart its execution coincides with the
strict no-recovery execution. -/
theorem c8_witness :
    catchRetryFree clearCartProg = true ∧
    execProg commandsModuleScope (fun _ => false) ["Sauce Labs Backpack"] clearCartProg =
      execStrict commandsModuleScope (fun _ => false) ["Sauce Labs Backpack"] clearCartProg :=
  ⟨rfl, c8_no_catch_no_retry.1 clearCartProg rfl commandsModuleScope (fun _ => false)
    ["Sauce Labs Backpack"]⟩

/-- Claim C9: the five custom commands are each registered into the global
command registry exactly once, all at module load before any scenario's
engine operations, and no registration event occurs during scenario
execution. -/
theorem c9_commands_registered_once :
    registeredCommandNames =
      ["loginAsStandardUser", "loginAs", "addProductViaUI", "clearCart",
       "setupCartWithProducts"] ∧
    registeredCommandNames.Nodup ∧
    fullRunEvents.filter Event.isRegister = registeredCommandNames.map Event.register ∧
    fullRunEvents.takeWhile Event.isRegister = registeredCommandNames.map Event.register ∧
    ((fullRunEvents.dropWhile Event.isRegister).all fun e => !e.isRegister) = true :=
  ⟨rfl, by decide, by decide, by decide, by decide⟩

/-- Claim C10: invoking the `clearCart` custom command when the cart holds at
least one item fails with a JavaScript `ReferenceError` for `CartPage`: the
command body evaluates `new CartPage()`, but `commands.js` imports only
`LoginPage` and `InventoryPage`, so the name is unbound; no engine operation
is executed at all. -/
theorem c10_clearCart_raises_referenceError (fails : EngineOp → Bool)
    (cart : List String) (_h : cart ≠ []) :
    execProg commandsModuleScope fails cart clearCartProg =
      ([], .error (.referenceError "CartPage")) := rfl

/-- Witness for C10 on a one-item cart. -/
theorem c10_witness :
    execProg commandsModuleScope (fun _ => false) ["Sauce Labs Backpack"] clearCartProg =
      ([], .error (.referenceError "CartPage")) :=
  c10_clearCart_raises_referenceError (fun _ => false) ["Sauce Labs Backpack"] (by decide)

end PageObjectsTutorial
